import Mathlib

/-!
Verification development for the Liquidity Matrix Bot v2 core
(`src/bot.py`): a shallow embedding of the pattern detector
(`detect_sweep_and_green`), the second-touch confirmation engine
(`detect_second_touch_and_confirmation`), the trade-plan builders
(`build_xau_trade_plan`, `build_btc_trade_plan`) and the analysis pass
(`get_and_analyze`, its post-fetch part), together with theorems about
the claims of the specification.

Prices, volumes and thresholds are modelled as rationals; Python's
`round(x, n)` (half-to-even decimal rounding) is modelled exactly on ℚ.
Candle timestamps are epoch seconds (`Int`).
-/

namespace LMBot

/-- One OHLCV candle, as produced by `parse_candles` in `src/bot.py`.
The `datetime` field is modelled as epoch seconds. -/
structure Candle where
  time : Int
  «open» : ℚ
  high : ℚ
  low : ℚ
  close : ℚ
  volume : ℚ
deriving DecidableEq, Inhabited, Repr

/-! ## Configuration constants (the CONFIG block of `src/bot.py`) -/

def XAU_SL_PIPS : ℚ := 20
def XAU_PIP : ℚ := 1/100
def BTC_SL_USD : ℚ := 350
def RR : ℚ := 4
def SL_BUFFER_PIPS : ℚ := 5
def RETEST_TOUCH_ALLOWANCE : Nat := 2
def CONFIRM_VOLUME_MULT : ℚ := 1
def LOOKBACK_15M : Nat := 96
def MIN_CANDLES_REQUIRED : Nat := 20

/-! ## Decimal rounding

Python's builtin `round(x, d)` rounds half-to-even.  The source applies it
to binary floats; here it is modelled as exact half-to-even rounding of a
rational to `d` decimal places. -/

/-- Round a rational to the nearest integer, ties to even. -/
def rhe (q : ℚ) : ℤ :=
  if q - (Int.floor q : ℚ) = 1/2 then
    (if 2 ∣ Int.floor q then Int.floor q else Int.floor q + 1)
  else round q

/-- `roundTo d q` models Python `round(q, d)`. -/
def roundTo (d : Nat) (q : ℚ) : ℚ := ((rhe (q * (10:ℚ)^d) : ℤ) : ℚ) / (10:ℚ)^d

/-! ## Python slices -/

/-- `lastN n l` models the Python slice `l[-n:]` (for `n > 0`). -/
def lastN (n : Nat) (l : List Candle) : List Candle := l.drop (l.length - n)

/-! ## detect_sweep_and_green (src/bot.py lines 103-126) -/

/-- The `lower_wick` expression of line 114:
`(open - low) if open > close else (close - low)`. -/
def lowerWick (c : Candle) : ℚ :=
  if c.«open» > c.close then c.«open» - c.low else c.close - c.low

/-- The `rng` expression of line 115: the candle range, replaced by `1e-6`
when it is not positive. -/
def rng (c : Candle) : ℚ :=
  if c.high - c.low > 0 then c.high - c.low else 1/1000000

/-- The condition under which the loop body of `detect_sweep_and_green`
returns at window index `i`: local low, wick-ratio above `0.35`, and the
immediately following candle closes green. -/
def sweepQualB (window : List Candle) (i : Nat) : Bool :=
  decide ((window.getD i default).low < (window.getD (i-1) default).low) &&
  decide ((window.getD i default).low < (window.getD (i+1) default).low) &&
  decide (lowerWick (window.getD i default) / rng (window.getD i default) > 35/100) &&
  decide ((window.getD (i+1) default).close > (window.getD (i+1) default).«open»)

/-- Result of `detect_sweep_and_green` (the returned dict has a `signal`
flag; candles and the index are present exactly when it is true). -/
inductive SweepResult where
  | noSignal (reason : String)
  | signal (sweep_candle confirm_candle : Candle) (sweep_idx_in_15m : Nat)
deriving DecidableEq, Repr

/-- The `for i in range(1, len(window)-1)` loop: first qualifying index. -/
def sweepScan (window : List Candle) : List Nat → Option Nat
  | [] => none
  | i :: rest => if sweepQualB window i then some i else sweepScan window rest

/-- `detect_sweep_and_green` from `src/bot.py` lines 103-126. -/
def detect_sweep_and_green (candles_15m : List Candle) (lookback : Nat := 6) : SweepResult :=
  if candles_15m.length < lookback + 2 then .noSignal "not_enough_data"
  else
    let window := lastN (lookback + 1) candles_15m
    match sweepScan window (List.range' 1 (window.length - 2)) with
    | some i => .signal (window.getD i default) (window.getD (i+1) default)
        (candles_15m.length - (lookback + 1) + i)
    | none => .noSignal "no_sweep"

/-! ## detect_second_touch_and_confirmation (src/bot.py lines 128-202) -/

/-- Result dict of `detect_second_touch_and_confirmation`:
`{'ok': bool, 'entry': price, 'reason': text, 'confirm_candle': {...}}`,
with a `touches` key present on one failure path. -/
structure SecResult where
  ok : Bool
  entry : Option ℚ
  confirm_candle : Option Candle
  reason : String
  touches : Option Nat
deriving DecidableEq, Repr

/-- The touch test of lines 145 and 154:
`c["low"] <= zone_top and c["low"] >= zone_bottom - 0.5`. -/
def isTouchB (zone_top zone_bottom : ℚ) (c : Candle) : Bool :=
  decide (c.low ≤ zone_top) && decide (c.low ≥ zone_bottom - 1/2)

/-- Touches counted over the last 60 5m candles (lines 143-146). -/
def touchCount (candles_5m : List Candle) (zone_top zone_bottom : ℚ) : Nat :=
  ((lastN 60 candles_5m).filter (isTouchB zone_top zone_bottom)).length

/-- First index in `idxs` whose candle satisfies `p`. -/
def findFirstIdxIn (cs : List Candle) (p : Candle → Bool) : List Nat → Option Nat
  | [] => none
  | i :: rest => if p (cs.getD i default) then some i else findFirstIdxIn cs p rest

/-- The descending scan of lines 152-156: index of the last touching candle. -/
def findLastTouchIdx (candles_5m : List Candle) (zone_top zone_bottom : ℚ) : Option Nat :=
  findFirstIdxIn candles_5m (isTouchB zone_top zone_bottom)
    (List.range candles_5m.length).reverse

/-- The bullish-engulfing test of lines 168-169 and 195-196. -/
def engulfCondB (prev cand : Candle) : Bool :=
  decide (prev.close < prev.«open») && decide (cand.close > cand.«open») &&
  decide (cand.close > prev.«open») && decide (cand.«open» < prev.close)

/-- The volume gate `avg == 0 or cand.volume >= avg * CONFIRM_VOLUME_MULT`. -/
def volOkB (avg vol : ℚ) : Bool :=
  decide (avg = 0) || decide (vol ≥ avg * CONFIRM_VOLUME_MULT)

/-- `avg_prev2_vol` of line 171 (Python `idx-2 >= 0` guard). -/
def avgPrev2Eng (c5 : List Candle) (idx : Nat) (prev : Candle) : ℚ :=
  if 2 ≤ idx then (prev.volume + (c5.getD (idx-2) default).volume) / 2 else prev.volume

/-- `avg_prev2_vol` of lines 180-182 (initialised to 0, set when both
`idx-1 >= 0` and `idx-2 >= 0`). -/
def avgPrev2Wick (c5 : List Candle) (idx : Nat) : ℚ :=
  if 1 ≤ idx ∧ 2 ≤ idx then
    ((c5.getD (idx-1) default).volume + (c5.getD (idx-2) default).volume) / 2
  else 0

/-- The wick-rejection test of line 179. -/
def wickCondB (zone_top : ℚ) (cand : Candle) : Bool :=
  decide (cand.low ≤ zone_top) &&
  decide (cand.close - cand.low ≥ (cand.high - cand.low) * (1/2)) &&
  decide (cand.close > cand.«open»)

/-- The success dict built at lines 173-174, 184-185 and 200-201: every
approval returns `entry = round(max(open+0.02, (close+zone_bottom)/2), 3)`
with the confirm candle; only the reason string differs per return site. -/
def mkOkResult (cand : Candle) (zone_bottom : ℚ) (reason : String) : SecResult :=
  { ok := true,
    entry := some (roundTo 3 (max (cand.«open» + 2/100) ((cand.close + zone_bottom) / 2))),
    confirm_candle := some cand, reason := reason, touches := none }

/-- One iteration of the `for j in range(1, 3)` loop (lines 160-185): at
`idx`, try bullish engulfing then wick rejection; `none` means fall
through (including the `idx >= len` break). -/
def tryConfirm (candles_5m : List Candle) (zone_top zone_bottom : ℚ) (idx : Nat) :
    Option SecResult :=
  if idx < candles_5m.length then
    if decide (1 ≤ idx) &&
       engulfCondB (candles_5m.getD (idx-1) default) (candles_5m.getD idx default) &&
       volOkB (avgPrev2Eng candles_5m idx (candles_5m.getD (idx-1) default))
         ((candles_5m.getD idx default).volume) then
      some (mkOkResult (candles_5m.getD idx default) zone_bottom
        "engulfing_after_second_touch")
    else if wickCondB zone_top (candles_5m.getD idx default) &&
            volOkB (avgPrev2Wick candles_5m idx) ((candles_5m.getD idx default).volume) then
      some (mkOkResult (candles_5m.getD idx default) zone_bottom
        "wick_rejection_after_second_touch")
    else none
  else none

/-- `avg_prev2_vol` of line 197 in the fallback scan
(`last_6[idx-2]` if `idx-2 >= 0` else `prev`). -/
def avgPrev2Fallback (last_6 : List Candle) (idx : Nat) (prev : Candle) : ℚ :=
  (prev.volume + (if 2 ≤ idx then (last_6.getD (idx-2) default).volume else prev.volume)) / 2

/-- One candidate of the fallback `for idx, cand in enumerate(last_6)` loop
(lines 191-201): engulfing versus the previous candle plus the volume gate. -/
def fallbackCheck (last_6 : List Candle) (zone_bottom : ℚ) (idx : Nat) : Option SecResult :=
  if 0 < idx then
    if engulfCondB (last_6.getD (idx-1) default) (last_6.getD idx default) &&
       volOkB (avgPrev2Fallback last_6 idx (last_6.getD (idx-1) default))
         ((last_6.getD idx default).volume) then
      some (mkOkResult (last_6.getD idx default) zone_bottom
        "engulfing_no_second_touch_but_strong_confirm")
    else none
  else none

/-- The fallback loop over the last 6 5m candles (lines 190-202). -/
def fallbackGo (last_6 : List Candle) (zone_bottom : ℚ) : List Nat → SecResult
  | [] => { ok := false, entry := none, confirm_candle := none,
            reason := "not_enough_touches_and_no_confirm", touches := none }
  | idx :: rest =>
    match fallbackCheck last_6 zone_bottom idx with
    | some r => r
    | none => fallbackGo last_6 zone_bottom rest

/-- `detect_second_touch_and_confirmation` from `src/bot.py` lines 128-202.
(`candles_15m` is a parameter of the source function but is never read.) -/
def detect_second_touch_and_confirmation (candles_15m candles_5m : List Candle)
    (sweep_low breakout_body_high : ℚ) : SecResult :=
  let zone_top := breakout_body_high
  let zone_bottom := sweep_low
  let touches := touchCount candles_5m zone_top zone_bottom
  if RETEST_TOUCH_ALLOWANCE ≤ touches then
    match findLastTouchIdx candles_5m zone_top zone_bottom with
    | none => { ok := false, entry := none, confirm_candle := none,
                reason := "touch_count_but_no_index", touches := none }
    | some last_touch_idx =>
      match tryConfirm candles_5m zone_top zone_bottom (last_touch_idx + 1) with
      | some r => r
      | none =>
        match tryConfirm candles_5m zone_top zone_bottom (last_touch_idx + 2) with
        | some r => r
        | none => { ok := false, entry := none, confirm_candle := none,
                    reason := "no_confirm_after_second_touch", touches := some touches }
  else
    fallbackGo (lastN 6 candles_5m) zone_bottom (List.range (lastN 6 candles_5m).length)

/-! ## compute_liquidity_zones (lines 204-211) -/

structure LiquidityZones where
  recent_low : ℚ
  recent_high : ℚ
  last_close : ℚ
deriving DecidableEq, Repr

/-- `compute_liquidity_zones`; Python `min`/`max` raise on an empty list,
modelled as `none`. -/
def compute_liquidity_zones (candles : List Candle) : Option LiquidityZones :=
  match candles.map (fun c => c.low), candles.map (fun c => c.high), candles.getLast? with
  | l :: ls, h :: hs, some lastc =>
    some { recent_low := ls.foldl min l, recent_high := hs.foldl max h,
           last_close := lastc.close }
  | _, _, _ => none

/-! ## Trade plan builders (lines 215-270) -/

/-- The plan dict built by `build_xau_trade_plan` / `build_btc_trade_plan`. -/
structure TradePlan where
  side : String
  entry : ℚ
  sl : ℚ
  tp : ℚ
  tp1 : ℚ
  confidence : ℚ
  logic : String
  confirm_candle : Option Candle
deriving DecidableEq, Repr

/-- `build_xau_trade_plan` from `src/bot.py` lines 215-245.  (If the
confirmation result had `ok` without an entry the source would raise a
`KeyError`; that branch is unreachable, see `sec_ok_entry_isSome`.) -/
def build_xau_trade_plan (detection : SweepResult) (candles_15m candles_5m : List Candle) :
    Option TradePlan :=
  match detection with
  | .noSignal _ => none
  | .signal sweep confirm _ =>
    let sweep_low := sweep.low
    let breakout_body_high := confirm.high
    let sec := detect_second_touch_and_confirmation candles_15m candles_5m
                 sweep_low breakout_body_high
    if sec.ok then
      match sec.entry with
      | some entry =>
        let sl_price := sweep_low - SL_BUFFER_PIPS * XAU_PIP - XAU_SL_PIPS * XAU_PIP * 0
        let rr_distance := entry - sl_price
        some { side := "LONG", entry := roundTo 3 entry, sl := roundTo 3 sl_price,
               tp := roundTo 3 (entry + rr_distance * RR),
               tp1 := roundTo 3 (entry + rr_distance * 1),
               confidence := 85/100,
               logic := "Sweep+Green 15m + second-touch confirm (" ++ sec.reason ++ ")",
               confirm_candle := sec.confirm_candle }
      | none => none
    else none

/-- `build_btc_trade_plan` from `src/bot.py` lines 247-270. -/
def build_btc_trade_plan (detection : SweepResult) (candles_15m candles_5m : List Candle) :
    Option TradePlan :=
  match detection with
  | .noSignal _ => none
  | .signal sweep confirm _ =>
    let sweep_low := sweep.low
    let breakout_body_high := confirm.high
    let sec := detect_second_touch_and_confirmation candles_15m candles_5m
                 sweep_low breakout_body_high
    if sec.ok then
      match sec.entry with
      | some entry =>
        let sl_price := sweep_low - BTC_SL_USD
        let rr_distance := entry - sl_price
        some { side := "LONG", entry := roundTo 2 entry, sl := roundTo 2 sl_price,
               tp := roundTo 2 (entry + rr_distance * RR),
               tp1 := roundTo 2 (entry + rr_distance * 1),
               confidence := 8/10,
               logic := "Sweep+Green 15m + second-touch confirm (" ++ sec.reason ++ ")",
               confirm_candle := sec.confirm_candle }
      | none => none
    else none

/-! ## get_and_analyze (lines 274-301), post-fetch part -/

/-- Substring check modelling Python's `"XAU" in symbol`. -/
def listPrefixOf : List Char → List Char → Bool
  | [], _ => true
  | _ :: _, [] => false
  | a :: as, b :: bs => decide (a = b) && listPrefixOf as bs

def strContains (hay needle : String) : Bool :=
  (List.range (hay.data.length + 1)).any (fun i => listPrefixOf needle.data (hay.data.drop i))

/-- Result of an analysis pass: either the early `{"error": ...}` dict or
the full result dict (whose `plan` key is present only on a signal, and
whose value may itself be `None`). -/
inductive AnalyzeResult where
  | error (msg : String)
  | ok (symbol : String) (detection : SweepResult) (liquidity : Option LiquidityZones)
       (latest_15m latest_5m : Option Candle) (plan : Option (Option TradePlan))
deriving DecidableEq, Repr

/-- The body of `get_and_analyze` after the provider fetch and
`parse_candles` (lines 282-301): the length guard, detection, liquidity
zones and plan construction. -/
def get_and_analyze_core (symbol : String) (candles_15m candles_5m : List Candle) :
    AnalyzeResult :=
  if candles_15m.length < MIN_CANDLES_REQUIRED ∨ candles_5m.length < MIN_CANDLES_REQUIRED then
    .error "not_enough_candles"
  else
    let detection := detect_sweep_and_green candles_15m 6
    let liquidity := compute_liquidity_zones (lastN LOOKBACK_15M candles_15m)
    let plan : Option (Option TradePlan) :=
      match detection with
      | .signal _ _ _ =>
        some (if strContains symbol "XAU" then
                build_xau_trade_plan detection candles_15m candles_5m
              else
                build_btc_trade_plan detection candles_15m candles_5m)
      | .noSignal _ => none
    .ok symbol detection liquidity candles_15m.getLast? candles_5m.getLast? plan

/-! ## Alert deduplication

Modelled from the spec: the Alert Deduplicator (spec section 4.5) is not
present in `src/bot.py` — `job_pre_alert` (lines 325-335) sends messages
without any dedup gate, and no `shouldAlert` or alert cache exists in the
source.  The model below follows the spec's words: a set of already
alerted `(symbol, candleTime)` identities; `shouldAlert(identity)` returns
false if present, true and records it otherwise. -/

structure AlertCache where
  seen : List (String × Int)
deriving DecidableEq, Repr

/-- Modelled from the spec: `shouldAlert(identity)`: returns false if
present, true and records it otherwise. -/
def shouldAlert (cache : AlertCache) (identity : String × Int) : Bool × AlertCache :=
  if identity ∈ cache.seen then (false, cache)
  else (true, { seen := identity :: cache.seen })

/-! ## Spec-side definitions used to check the detector against the
specification's wording -/

/-- The specification's lower-wick ratio:
`lowerWickRatio = (min(open,close) - low) / range`. -/
def specLowerWickRatio (c : Candle) : ℚ :=
  (min c.«open» c.close - c.low) / (c.high - c.low)

/-- Follows the claim's words: interior candle `i` of the window is a
local low whose spec lower-wick ratio exceeds 0.35 and whose following
candle closes green. -/
def specQualB (window : List Candle) (i : Nat) : Bool :=
  decide ((window.getD i default).low < (window.getD (i-1) default).low) &&
  decide ((window.getD i default).low < (window.getD (i+1) default).low) &&
  decide (specLowerWickRatio (window.getD i default) > 35/100) &&
  decide ((window.getD (i+1) default).close > (window.getD (i+1) default).«open»)

/-- Hour of day (UTC) of an epoch-seconds timestamp. -/
def utcHour (t : Int) : Int := (t / 3600) % 24

/-- Candle with its timestamp rewritten; used to state that the detector
is independent of timestamps. -/
def retime (f : Int → Int) (c : Candle) : Candle :=
  { time := f c.time, «open» := c.«open», high := c.high, low := c.low,
    close := c.close, volume := c.volume }

/-- Apply a candle transformation to the candles inside a detection result. -/
def mapSweepResult (g : Candle → Candle) : SweepResult → SweepResult
  | .noSignal r => .noSignal r
  | .signal s c i => .signal (g s) (g c) i

/-! ## Concrete candle series used as witnesses and counterexamples -/

/-- A 15m series (8 candles, times 150 minutes apart from 02:30 UTC) whose
trailing 7-candle window has a genuine sweep at window index 1 (timestamp
10800 = 03:00 UTC) confirmed by a green candle at index 2. -/
def ex15 : List Candle :=
  [⟨9000, 100.5, 101, 100.2, 100.4, 10⟩,
   ⟨9900, 100.4, 100.8, 100, 100.2, 10⟩,
   ⟨10800, 99, 100, 95.0004, 99.8, 10⟩,
   ⟨11700, 99, 101, 98, 100.5, 10⟩,
   ⟨12600, 100, 101.5, 99.5, 101, 10⟩,
   ⟨13500, 100.8, 101.2, 100.2, 100.9, 10⟩,
   ⟨14400, 100.5, 101, 100.3, 100.7, 10⟩,
   ⟨15300, 100.4, 100.9, 100.2, 100.6, 10⟩]

/-- The sweep candle the detector reports on `ex15`. -/
def exSweep : Candle := ⟨10800, 99, 100, 95.0004, 99.8, 10⟩

/-- The confirm candle the detector reports on `ex15`. -/
def exConfirm : Candle := ⟨11700, 99, 101, 98, 100.5, 10⟩

/-- A 5m series with two touches of the retest zone `[95.0004, 101]`
(indices 1 and 2) and a bullish engulfing confirm right after the last
touch (index 3). -/
def ex5 : List Candle :=
  [⟨100, 103.5, 104, 103, 103.8, 10⟩,
   ⟨400, 97, 98, 96, 96.5, 10⟩,
   ⟨700, 97, 97.5, 95.5, 96, 10⟩,
   ⟨1000, 95.8, 98.5, 94, 98, 20⟩,
   ⟨1300, 102.5, 103, 102, 102.8, 10⟩,
   ⟨1600, 102.6, 103.2, 102.1, 102.9, 10⟩]

/-- The confirming 5m candle of `ex5`. -/
def exQ3 : Candle := ⟨1000, 95.8, 98.5, 94, 98, 20⟩

/-- The XAU plan built from `ex15`/`ex5`. -/
def exPlanX : TradePlan :=
  { side := "LONG", entry := 96.5, sl := 94.95, tp := 102.698, tp1 := 98.05,
    confidence := 85/100,
    logic := "Sweep+Green 15m + second-touch confirm (engulfing_after_second_touch)",
    confirm_candle := some exQ3 }

/-- The BTC plan built from `ex15`/`ex5`. -/
def exPlanB : TradePlan :=
  { side := "LONG", entry := 96.5, sl := -255, tp := 1502.5, tp1 := 448,
    confidence := 8/10,
    logic := "Sweep+Green 15m + second-touch confirm (engulfing_after_second_touch)",
    confirm_candle := some exQ3 }

/-- A 15m series whose window candle at index 1 is a local low followed by
a green candle but whose body is large and green: its spec lower-wick
ratio is only 0.04, yet the code's `lower_wick` expression (which yields
`max(open,close) - low`) gives ratio 0.96. -/
def fx15 : List Candle :=
  [⟨0, 100.5, 101, 100.2, 100.4, 10⟩,
   ⟨900, 100.4, 100.8, 100, 100.2, 10⟩,
   ⟨1800, 95.2, 100, 95, 99.8, 10⟩,
   ⟨2700, 99, 101, 98, 100.5, 10⟩,
   ⟨3600, 100, 101.5, 99.5, 101, 10⟩,
   ⟨4500, 100.8, 101.2, 100.2, 100.9, 10⟩,
   ⟨5400, 100.5, 101, 100.3, 100.7, 10⟩,
   ⟨6300, 100.4, 100.9, 100.2, 100.6, 10⟩]

/-- The candle the detector reports as sweep on `fx15`. -/
def fxSweep : Candle := ⟨1800, 95.2, 100, 95, 99.8, 10⟩

/-- The candle the detector reports as confirm on `fx15`. -/
def fxConfirm : Candle := ⟨2700, 99, 101, 98, 100.5, 10⟩

/-- A 15m series with two qualifying interior window indices (1 and 3);
used to witness the earliest-wins tie-break. -/
def g15 : List Candle :=
  [⟨0, 100.5, 101, 100.2, 100.4, 10⟩,
   ⟨900, 100.4, 100.8, 100, 100.2, 10⟩,
   ⟨1800, 99, 100, 95, 99.5, 10⟩,
   ⟨2700, 99, 101, 98, 100.4, 10⟩,
   ⟨3600, 97, 98, 94, 97.5, 10⟩,
   ⟨4500, 98, 99.5, 95, 99, 10⟩,
   ⟨5400, 100.5, 101, 100.3, 100.7, 10⟩,
   ⟨6300, 100.4, 100.9, 100.2, 100.6, 10⟩]

/-- A 15m series with a degenerate zero-range candle (a doji that is also
a local low) at window index 2, and a genuine sweep later at index 4. -/
def z15 : List Candle :=
  [⟨0, 100.5, 101, 100.2, 100.4, 10⟩,
   ⟨900, 100.4, 100.8, 100, 100.2, 10⟩,
   ⟨1800, 99.5, 100.2, 99, 99.7, 10⟩,
   ⟨2700, 97, 97, 97, 97, 10⟩,
   ⟨3600, 98.5, 99.5, 98, 99, 10⟩,
   ⟨4500, 99, 100, 96, 99.8, 10⟩,
   ⟨5400, 99, 101, 98.5, 100.5, 10⟩,
   ⟨6300, 100.4, 100.9, 100.2, 100.6, 10⟩]

/-- The degenerate candle of `z15`. -/
def zDoji : Candle := ⟨2700, 97, 97, 97, 97, 10⟩

/-- The stop-loss expression of `build_xau_trade_plan` (line 232). -/
def xauStop (sweep_low : ℚ) : ℚ :=
  sweep_low - SL_BUFFER_PIPS * XAU_PIP - XAU_SL_PIPS * XAU_PIP * 0

/-- Index `idx` of the last-6 list is a qualifying fallback confirmation:
a bullish engulfing versus the previous candle that passes the volume
gate (the conditions of lines 193-198 of `src/bot.py`). -/
def fallbackQualifiesB (last_6 : List Candle) (idx : Nat) : Bool :=
  decide (0 < idx) && decide (idx < last_6.length) &&
  engulfCondB (last_6.getD (idx-1) default) (last_6.getD idx default) &&
  volOkB (avgPrev2Fallback last_6 idx (last_6.getD (idx-1) default))
    ((last_6.getD idx default).volume)

/-! ## Helper lemmas -/

lemma lastN_length (n : Nat) (l : List Candle) (h : n ≤ l.length) :
    (lastN n l).length = n := by
  unfold lastN
  rw [List.length_drop]
  omega

lemma sweepScan_eq_some (w : List Candle) (idxs : List Nat) (k : Nat)
    (h : sweepScan w idxs = some k) : k ∈ idxs ∧ sweepQualB w k = true := by
  induction idxs with
  | nil => simp [sweepScan] at h
  | cons i rest ih =>
    by_cases hq : sweepQualB w i = true
    · unfold sweepScan at h
      rw [if_pos hq] at h
      injection h with h
      subst h
      exact ⟨List.mem_cons_self _ _, hq⟩
    · unfold sweepScan at h
      rw [if_neg hq] at h
      obtain ⟨h1, h2⟩ := ih h
      exact ⟨List.mem_cons_of_mem _ h1, h2⟩

lemma sweepScan_first (w : List Candle) (idxs : List Nat) (k : Nat)
    (hp : idxs.Pairwise (· < ·)) (h : sweepScan w idxs = some k) :
    ∀ m ∈ idxs, m < k → sweepQualB w m = false := by
  induction idxs with
  | nil => intro m hm; simp at hm
  | cons i rest ih =>
    rw [List.pairwise_cons] at hp
    by_cases hq : sweepQualB w i = true
    · unfold sweepScan at h
      rw [if_pos hq] at h
      injection h with h
      subst h
      intro m hm hmk
      rcases List.mem_cons.mp hm with h1 | h1
      · omega
      · exact absurd hmk (by have := hp.1 m h1; omega)
    · unfold sweepScan at h
      rw [if_neg hq] at h
      intro m hm hmk
      rcases List.mem_cons.mp hm with h1 | h1
      · subst h1; exact Bool.eq_false_iff.mpr hq
      · exact ih hp.2 h m h1 hmk

lemma sweepScan_eq_none (w : List Candle) (idxs : List Nat)
    (h : sweepScan w idxs = none) : ∀ m ∈ idxs, sweepQualB w m = false := by
  induction idxs with
  | nil => intro m hm; simp at hm
  | cons i rest ih =>
    by_cases hq : sweepQualB w i = true
    · unfold sweepScan at h; rw [if_pos hq] at h; exact absurd h (by simp)
    · unfold sweepScan at h
      rw [if_neg hq] at h
      intro m hm
      rcases List.mem_cons.mp hm with h1 | h1
      · subst h1; exact Bool.eq_false_iff.mpr hq
      · exact ih h m h1

/-- Every signal returned by the detector comes from a qualifying scan hit. -/
lemma detect_signal_char (cs : List Candle) (lb : Nat) (s c : Candle) (m : Nat)
    (h : detect_sweep_and_green cs lb = .signal s c m) :
    ¬ cs.length < lb + 2 ∧
    ∃ k, sweepScan (lastN (lb+1) cs) (List.range' 1 ((lastN (lb+1) cs).length - 2)) = some k ∧
      m = cs.length - (lb+1) + k ∧
      s = (lastN (lb+1) cs).getD k default ∧ c = (lastN (lb+1) cs).getD (k+1) default := by
  unfold detect_sweep_and_green at h
  simp only [] at h
  by_cases hl : cs.length < lb + 2
  · rw [if_pos hl] at h; exact absurd h (by intro hh; cases hh)
  · rw [if_neg hl] at h
    refine ⟨hl, ?_⟩
    rcases hs : sweepScan (lastN (lb+1) cs) (List.range' 1 ((lastN (lb+1) cs).length - 2)) with _ | k
    · rw [hs] at h; exact absurd h (by intro hh; cases hh)
    · rw [hs] at h
      injection h with h1 h2 h3
      exact ⟨k, rfl, h3.symm, h1.symm, h2.symm⟩

lemma tryConfirm_some_shape (c5 : List Candle) (zt zb : ℚ) (idx : Nat) (r : SecResult)
    (h : tryConfirm c5 zt zb idx = some r) :
    ∃ cand reason, r = mkOkResult cand zb reason := by
  unfold tryConfirm at h
  split at h
  · split at h
    · injection h with h
      exact ⟨_, _, h.symm⟩
    · split at h
      · injection h with h
        exact ⟨_, _, h.symm⟩
      · exact absurd h (by simp)
  · exact absurd h (by simp)

lemma fallbackCheck_some_shape (l : List Candle) (zb : ℚ) (idx : Nat) (r : SecResult)
    (h : fallbackCheck l zb idx = some r) :
    ∃ cand, r = mkOkResult cand zb "engulfing_no_second_touch_but_strong_confirm" := by
  unfold fallbackCheck at h
  split at h
  · split at h
    · injection h with h
      exact ⟨_, h.symm⟩
    · exact absurd h (by simp)
  · exact absurd h (by simp)

lemma fallbackGo_ok_shape (l : List Candle) (zb : ℚ) (idxs : List Nat)
    (h : (fallbackGo l zb idxs).ok = true) :
    ∃ cand, fallbackGo l zb idxs
      = mkOkResult cand zb "engulfing_no_second_touch_but_strong_confirm" := by
  induction idxs with
  | nil => simp [fallbackGo] at h
  | cons i rest ih =>
    rcases hc : fallbackCheck l zb i with _ | r
    · unfold fallbackGo at h ⊢
      rw [hc] at h ⊢
      exact ih h
    · unfold fallbackGo at h ⊢
      rw [hc] at h ⊢
      exact fallbackCheck_some_shape l zb i r hc

/-- Every approval of the confirmation engine is an `mkOkResult`: the
confirm candle is set and the entry is the rounded
`max(open+0.02, (close+zone_bottom)/2)` for that candle. -/
lemma sec_ok_shape (c15 c5 : List Candle) (sl bh : ℚ)
    (h : (detect_second_touch_and_confirmation c15 c5 sl bh).ok = true) :
    ∃ cand reason, detect_second_touch_and_confirmation c15 c5 sl bh
      = mkOkResult cand sl reason := by
  revert h
  unfold detect_second_touch_and_confirmation
  simp only []
  split
  · split
    · intro h; simp at h
    · split
      · rename_i r1 h1
        intro _
        exact tryConfirm_some_shape _ _ _ _ _ h1
      · split
        · rename_i r2 h2
          intro _
          exact tryConfirm_some_shape _ _ _ _ _ h2
        · intro h; simp at h
  · intro h
    obtain ⟨cand, hc⟩ := fallbackGo_ok_shape (lastN 6 c5) sl _ h
    exact ⟨cand, _, hc⟩

/-- An approval always carries an entry price (so the `sec["entry"]`
access in the plan builders cannot fail). -/
lemma sec_ok_entry_isSome (c15 c5 : List Candle) (sl bh : ℚ)
    (h : (detect_second_touch_and_confirmation c15 c5 sl bh).ok = true) :
    (detect_second_touch_and_confirmation c15 c5 sl bh).entry.isSome := by
  obtain ⟨cand, reason, hr⟩ := sec_ok_shape c15 c5 sl bh h
  rw [hr]
  rfl

/-! ## Rounding lemmas -/

lemma abs_rhe_sub (q : ℚ) : |(rhe q : ℚ) - q| ≤ 1/2 := by
  unfold rhe
  by_cases h : q - (Int.floor q : ℚ) = 1/2
  · rw [if_pos h]
    by_cases h2 : 2 ∣ Int.floor q
    · rw [if_pos h2, abs_le]
      constructor <;> linarith
    · rw [if_neg h2]
      push_cast
      rw [abs_le]
      constructor <;> linarith
  · rw [if_neg h]
    rw [abs_sub_comm]
    exact abs_sub_round q

lemma abs_roundTo_sub (d : Nat) (q : ℚ) : |roundTo d q - q| ≤ 1 / (2 * 10^d) := by
  unfold roundTo
  have hpow : (0:ℚ) < 10^d := by positivity
  have h := abs_rhe_sub (q * 10^d)
  have heq : ((rhe (q * 10^d) : ℤ) : ℚ) / 10^d - q
      = ((rhe (q * 10^d) : ℤ) - q * 10^d) / 10^d := by
    field_simp
    ring
  rw [heq, abs_div, abs_of_pos hpow, div_le_div_iff₀ hpow (by positivity)]
  calc |((rhe (q * 10^d) : ℤ) : ℚ) - q * 10^d| * (2 * 10^d)
      ≤ (1/2) * (2 * 10^d) := by
        apply mul_le_mul_of_nonneg_right h
        positivity
    _ = 1 * 10^d := by ring

lemma rhe_intCast (k : ℤ) : rhe (k : ℚ) = k := by
  unfold rhe
  rw [Int.floor_intCast]
  rw [if_neg (by norm_num)]
  exact round_intCast k

lemma roundTo_idem (d : Nat) (q : ℚ) : roundTo d (roundTo d q) = roundTo d q := by
  unfold roundTo
  have hpow : (10:ℚ)^d ≠ 0 := by positivity
  rw [div_mul_cancel₀ _ hpow, rhe_intCast]

/-! ## Builder characterization lemmas -/

/-- Every plan emitted by `build_xau_trade_plan` comes from a signal whose
confirmation was approved, and its fields are the rounded entry / stop /
targets computed from the approved entry. -/
lemma build_xau_char (det : SweepResult) (c15 c5 : List Candle) (p : TradePlan)
    (h : build_xau_trade_plan det c15 c5 = some p) :
    ∃ sweep confirm k e,
      det = .signal sweep confirm k ∧
      (detect_second_touch_and_confirmation c15 c5 sweep.low confirm.high).ok = true ∧
      (detect_second_touch_and_confirmation c15 c5 sweep.low confirm.high).entry = some e ∧
      p = { side := "LONG", entry := roundTo 3 e, sl := roundTo 3 (xauStop sweep.low),
            tp := roundTo 3 (e + (e - xauStop sweep.low) * RR),
            tp1 := roundTo 3 (e + (e - xauStop sweep.low) * 1),
            confidence := 85/100,
            logic := "Sweep+Green 15m + second-touch confirm ("
              ++ (detect_second_touch_and_confirmation c15 c5 sweep.low confirm.high).reason
              ++ ")",
            confirm_candle :=
              (detect_second_touch_and_confirmation c15 c5 sweep.low confirm.high).confirm_candle } := by
  match det with
  | .noSignal r => exact absurd h (by simp [build_xau_trade_plan])
  | .signal sweep confirm k =>
    unfold build_xau_trade_plan at h
    simp only [] at h
    split at h
    · split at h
      · rename_i e he
        injection h with h
        exact ⟨sweep, confirm, k, e, rfl, by assumption, he, h.symm⟩
      · exact absurd h (by simp)
    · exact absurd h (by simp)

/-- Same characterization for `build_btc_trade_plan`. -/
lemma build_btc_char (det : SweepResult) (c15 c5 : List Candle) (p : TradePlan)
    (h : build_btc_trade_plan det c15 c5 = some p) :
    ∃ sweep confirm k e,
      det = .signal sweep confirm k ∧
      (detect_second_touch_and_confirmation c15 c5 sweep.low confirm.high).ok = true ∧
      (detect_second_touch_and_confirmation c15 c5 sweep.low confirm.high).entry = some e ∧
      p = { side := "LONG", entry := roundTo 2 e, sl := roundTo 2 (sweep.low - BTC_SL_USD),
            tp := roundTo 2 (e + (e - (sweep.low - BTC_SL_USD)) * RR),
            tp1 := roundTo 2 (e + (e - (sweep.low - BTC_SL_USD)) * 1),
            confidence := 8/10,
            logic := "Sweep+Green 15m + second-touch confirm ("
              ++ (detect_second_touch_and_confirmation c15 c5 sweep.low confirm.high).reason
              ++ ")",
            confirm_candle :=
              (detect_second_touch_and_confirmation c15 c5 sweep.low confirm.high).confirm_candle } := by
  match det with
  | .noSignal r => exact absurd h (by simp [build_btc_trade_plan])
  | .signal sweep confirm k =>
    unfold build_btc_trade_plan at h
    simp only [] at h
    split at h
    · split at h
      · rename_i e he
        injection h with h
        exact ⟨sweep, confirm, k, e, rfl, by assumption, he, h.symm⟩
      · exact absurd h (by simp)
    · exact absurd h (by simp)

/-! ## Timestamp independence of the detector -/

lemma getD_map_retime (f : Int → Int) (l : List Candle) (i : Nat) :
    ((l.map (retime f)).getD i default).«open» = (l.getD i default).«open» ∧
    ((l.map (retime f)).getD i default).high = (l.getD i default).high ∧
    ((l.map (retime f)).getD i default).low = (l.getD i default).low ∧
    ((l.map (retime f)).getD i default).close = (l.getD i default).close := by
  rw [List.getD_eq_getElem?_getD, List.getD_eq_getElem?_getD, List.getElem?_map]
  cases l[i]? <;> exact ⟨rfl, rfl, rfl, rfl⟩

lemma getD_map_retime_lt (f : Int → Int) (l : List Candle) (i : Nat) (h : i < l.length) :
    (l.map (retime f)).getD i default = retime f (l.getD i default) := by
  rw [List.getD_eq_getElem?_getD, List.getD_eq_getElem?_getD, List.getElem?_map,
    List.getElem?_eq_getElem h]
  rfl

lemma sweepQualB_map_retime (f : Int → Int) (w : List Candle) (i : Nat) :
    sweepQualB (w.map (retime f)) i = sweepQualB w i := by
  obtain ⟨_, _, hl1, _⟩ := getD_map_retime f w (i-1)
  obtain ⟨ho2, hh2, hl2, hc2⟩ := getD_map_retime f w i
  obtain ⟨ho3, _, hl3, hc3⟩ := getD_map_retime f w (i+1)
  unfold sweepQualB lowerWick rng
  rw [ho2, hh2, hl2, hc2, hl1, ho3, hl3, hc3]

lemma sweepScan_map_retime (f : Int → Int) (w : List Candle) (idxs : List Nat) :
    sweepScan (w.map (retime f)) idxs = sweepScan w idxs := by
  induction idxs with
  | nil => rfl
  | cons i rest ih =>
    unfold sweepScan
    rw [sweepQualB_map_retime, ih]

lemma lastN_map_retime (f : Int → Int) (n : Nat) (l : List Candle) :
    lastN n (l.map (retime f)) = (lastN n l).map (retime f) := by
  unfold lastN
  rw [List.length_map, List.map_drop]

/-! ## Fallback-scan lemmas -/

lemma fallbackCheck_isSome_iff (l : List Candle) (zb : ℚ) (idx : Nat)
    (hlt : idx < l.length) :
    (fallbackCheck l zb idx).isSome = true ↔ fallbackQualifiesB l idx = true := by
  unfold fallbackCheck fallbackQualifiesB
  by_cases h0 : 0 < idx <;>
    cases hE : engulfCondB (l.getD (idx-1) default) (l.getD idx default) <;>
      cases hV : volOkB (avgPrev2Fallback l idx (l.getD (idx-1) default))
        ((l.getD idx default).volume) <;>
        simp [h0, hE, hV, hlt]

lemma fallbackGo_ok_iff (l : List Candle) (zb : ℚ) (idxs : List Nat) :
    (fallbackGo l zb idxs).ok = true
      ↔ ∃ idx ∈ idxs, (fallbackCheck l zb idx).isSome = true := by
  induction idxs with
  | nil => simp [fallbackGo]
  | cons i rest ih =>
    rcases hc : fallbackCheck l zb i with _ | r
    · unfold fallbackGo
      rw [hc, ih]
      constructor
      · rintro ⟨idx, hmem, hs⟩
        exact ⟨idx, List.mem_cons_of_mem _ hmem, hs⟩
      · rintro ⟨idx, hmem, hs⟩
        rcases List.mem_cons.mp hmem with h1 | h1
        · subst h1; rw [hc] at hs; simp at hs
        · exact ⟨idx, h1, hs⟩
    · unfold fallbackGo
      rw [hc]
      obtain ⟨cand, hr⟩ := fallbackCheck_some_shape l zb i r hc
      subst hr
      constructor
      · intro _
        exact ⟨i, List.mem_cons_self _ _, by rw [hc]; rfl⟩
      · intro _
        rfl

/-! ## Claim theorems -/

/-- Claim C1: the code of `detect_sweep_and_green` contradicts the claimed
lower-wick-ratio condition.  On `fx15` the detector reports a candidate at
window index 1 even though that candle's lower-wick ratio
`(min(open,close) - low) / (high - low)` is `1/25 = 0.04 ≤ 0.35`, and no
interior candle of the window satisfies the claim's qualifying conditions:
the source's `lower_wick` ternary (line 114) has its branches swapped and
computes `max(open,close) - low` (body plus wick) instead of
`min(open,close) - low`. -/
theorem wick_ratio_mismatch :
    detect_sweep_and_green fx15 6 = .signal fxSweep fxConfirm 2 ∧
    specLowerWickRatio fxSweep = 1/25 ∧
    ¬ specLowerWickRatio fxSweep > 35/100 ∧
    (∀ i ∈ List.range' 1 5, specQualB (lastN 7 fx15) i = false) := by
  refine ⟨by decide!, by decide!, by decide!, by decide!⟩

/-- Claim C2 (modelled from the spec, section 4.5, as no deduplicator
exists in `src/bot.py`): `shouldAlert` returns true and records the
identity the first time it is seen, and false on an immediate repeat. -/
theorem shouldAlert_true_once_false_on_repeat (cache : AlertCache)
    (identity : String × Int) :
    (identity ∉ cache.seen → (shouldAlert cache identity).1 = true) ∧
    (shouldAlert (shouldAlert cache identity).2 identity).1 = false := by
  constructor
  · intro h
    unfold shouldAlert
    rw [if_neg h]
  · by_cases h : identity ∈ cache.seen <;> simp [shouldAlert, h]

/-- Witness for C2: `("BTCUSDT", 1000)` is alerted on first sight and
suppressed on the immediate repeat. -/
theorem shouldAlert_true_once_false_on_repeat_witness :
    (shouldAlert ⟨[]⟩ ("BTCUSDT", 1000)).1 = true ∧
    (shouldAlert (shouldAlert ⟨[]⟩ ("BTCUSDT", 1000)).2 ("BTCUSDT", 1000)).1 = false :=
  ⟨(shouldAlert_true_once_false_on_repeat ⟨[]⟩ ("BTCUSDT", 1000)).1 (by simp),
   (shouldAlert_true_once_false_on_repeat ⟨[]⟩ ("BTCUSDT", 1000)).2⟩

/-- Claim C3 counterexample: on `ex15` the sweep candle's timestamp is
03:00 UTC — outside the NY-open session window [12, 13) that the bot's
scheduler targets — yet the detector reports the candidate and a full
trade plan is produced: no session filter exists in the code. -/
theorem session_filter_absent_counterexample :
    detect_sweep_and_green ex15 6 = .signal exSweep exConfirm 2 ∧
    utcHour exSweep.time = 3 ∧
    ¬ (12 ≤ utcHour exSweep.time ∧ utcHour exSweep.time < 13) ∧
    build_xau_trade_plan (detect_sweep_and_green ex15 6) ex15 ex5 = some exPlanX := by
  refine ⟨by decide!, by decide!, by decide!, by decide!⟩

/-- Claim C3 (amended): `detect_sweep_and_green` applies no session
filter; its outcome is independent of candle timestamps — rewriting every
timestamp yields the same decision, the same window indices, and the same
price data, so no candidate is ever discarded by hour of day. -/
theorem detect_ignores_timestamps (f : Int → Int) (cs : List Candle) (lb : Nat) :
    detect_sweep_and_green (cs.map (retime f)) lb
      = mapSweepResult (retime f) (detect_sweep_and_green cs lb) := by
  unfold detect_sweep_and_green
  simp only []
  rw [List.length_map]
  by_cases hl : cs.length < lb + 2
  · rw [if_pos hl, if_pos hl]
    rfl
  · rw [if_neg hl, if_neg hl, lastN_map_retime, List.length_map, sweepScan_map_retime]
    rcases hs : sweepScan (lastN (lb+1) cs)
        (List.range' 1 ((lastN (lb+1) cs).length - 2)) with _ | k
    · rfl
    · obtain ⟨hkmem, _⟩ := sweepScan_eq_some _ _ _ hs
      rw [List.mem_range'_1] at hkmem
      have hwl : (lastN (lb+1) cs).length = lb + 1 := lastN_length _ _ (by omega)
      have hk1 : k < (lastN (lb+1) cs).length := by omega
      have hk2 : k + 1 < (lastN (lb+1) cs).length := by omega
      simp only [mapSweepResult]
      rw [getD_map_retime_lt f _ k hk1, getD_map_retime_lt f _ (k+1) hk2]

/-- Claim C8: a series shorter than `lookback+2` makes the detector fail
closed with the `not_enough_data` no-signal dict, and a pass whose parsed
series has fewer than `MIN_CANDLES_REQUIRED = 20` candles (on either
timeframe, including empty series) is skipped with the
`not_enough_candles` error dict; both functions are total, so no exception
reaches the caller. -/
theorem short_series_fails_closed :
    (∀ (cs : List Candle) (lb : Nat), cs.length < lb + 2 →
      detect_sweep_and_green cs lb = .noSignal "not_enough_data") ∧
    (∀ (sym : String) (c15 c5 : List Candle),
      c15.length < MIN_CANDLES_REQUIRED ∨ c5.length < MIN_CANDLES_REQUIRED →
      get_and_analyze_core sym c15 c5 = .error "not_enough_candles") := by
  constructor
  · intro cs lb h
    unfold detect_sweep_and_green
    rw [if_pos h]
  · intro sym c15 c5 h
    unfold get_and_analyze_core
    rw [if_pos h]

/-- Witness for C8 at the empty series. -/
theorem short_series_fails_closed_witness :
    detect_sweep_and_green [] 6 = .noSignal "not_enough_data" ∧
    get_and_analyze_core "BTC/USD" [] [] = .error "not_enough_candles" :=
  ⟨short_series_fails_closed.1 [] 6 (by decide),
   short_series_fails_closed.2 "BTC/USD" [] [] (Or.inl (by decide))⟩

/-- Claim C5 counterexample: on `ex15`/`ex5` with sweep low `95.0004` the
confirmation engine approves with confirm candle `exQ3`, but the entry it
returns is `96.5`, while `max(confirmOpen + 0.02, (confirmClose +
zoneBottom)/2) = 96.5002`: the returned entry is the rounded value, not
the exact maximum. -/
theorem entry_formula_counterexample :
    (detect_second_touch_and_confirmation ex15 ex5 95.0004 101).ok = true ∧
    (detect_second_touch_and_confirmation ex15 ex5 95.0004 101).confirm_candle = some exQ3 ∧
    (detect_second_touch_and_confirmation ex15 ex5 95.0004 101).entry = some 96.5 ∧
    max (exQ3.«open» + 2/100) ((exQ3.close + 95.0004) / 2) = 96.5002 ∧
    (96.5 : ℚ) ≠ 96.5002 := by
  refine ⟨by decide!, by decide!, by decide!, by decide!, by decide!⟩

/-- Claim C5 (amended): whenever the confirmation engine approves, the
entry it returns is `max(confirmOpen + 0.02, (confirmClose +
zoneBottom)/2)` rounded half-to-even to 3 decimal places, where
`zoneBottom` is the sweep low. -/
theorem entry_is_rounded_max (c15 c5 : List Candle) (sl bh : ℚ) (cand : Candle)
    (hok : (detect_second_touch_and_confirmation c15 c5 sl bh).ok = true)
    (hc : (detect_second_touch_and_confirmation c15 c5 sl bh).confirm_candle = some cand) :
    (detect_second_touch_and_confirmation c15 c5 sl bh).entry
      = some (roundTo 3 (max (cand.«open» + 2/100) ((cand.close + sl) / 2))) := by
  obtain ⟨cand', reason, hsec⟩ := sec_ok_shape c15 c5 sl bh hok
  rw [hsec] at hc ⊢
  have hcc : cand' = cand := by
    unfold mkOkResult at hc
    injection hc
  subst hcc
  rfl

/-- Witness for the amended C5 on the concrete data. -/
theorem entry_is_rounded_max_witness :
    (detect_second_touch_and_confirmation ex15 ex5 95.0004 101).entry
      = some (roundTo 3 (max (exQ3.«open» + 2/100) ((exQ3.close + 95.0004) / 2))) :=
  entry_is_rounded_max ex15 ex5 95.0004 101 exQ3 (by decide!) (by decide!)

/-- Claim C6: when the counted touches of the retest zone are below the
configured minimum, the engine approves exactly when some index of the
last 6 fine-granularity candles is a qualifying engulfing pattern passing
the volume gate, and any approval carries the fallback reason. -/
theorem low_touch_fallback_iff (c15 c5 : List Candle) (sl bh : ℚ)
    (ht : touchCount c5 bh sl < RETEST_TOUCH_ALLOWANCE) :
    ((detect_second_touch_and_confirmation c15 c5 sl bh).ok = true ↔
      ∃ idx ∈ List.range (lastN 6 c5).length, fallbackQualifiesB (lastN 6 c5) idx = true) ∧
    ((detect_second_touch_and_confirmation c15 c5 sl bh).ok = true →
      (detect_second_touch_and_confirmation c15 c5 sl bh).reason
        = "engulfing_no_second_touch_but_strong_confirm") := by
  have hd : detect_second_touch_and_confirmation c15 c5 sl bh
      = fallbackGo (lastN 6 c5) sl (List.range (lastN 6 c5).length) := by
    unfold detect_second_touch_and_confirmation
    simp only []
    rw [if_neg (by omega)]
  rw [hd]
  constructor
  · rw [fallbackGo_ok_iff]
    constructor
    · rintro ⟨idx, hmem, hs⟩
      exact ⟨idx, hmem, (fallbackCheck_isSome_iff _ _ _ (List.mem_range.mp hmem)).mp hs⟩
    · rintro ⟨idx, hmem, hq⟩
      exact ⟨idx, hmem, (fallbackCheck_isSome_iff _ _ _ (List.mem_range.mp hmem)).mpr hq⟩
  · intro h
    obtain ⟨cand, hc⟩ := fallbackGo_ok_shape _ _ _ h
    rw [hc]
    rfl

/-- Witness for C6: with the retest zone `[1000, 1001]` no candle of `ex5`
touches, and the engine still approves through the fallback engulfing at
index 3 of the last six candles. -/
theorem low_touch_fallback_iff_witness :
    touchCount ex5 1001 1000 < RETEST_TOUCH_ALLOWANCE ∧
    ((detect_second_touch_and_confirmation ex15 ex5 1000 1001).ok = true ↔
      ∃ idx ∈ List.range (lastN 6 ex5).length, fallbackQualifiesB (lastN 6 ex5) idx = true) :=
  ⟨by decide!, (low_touch_fallback_iff ex15 ex5 1000 1001 (by decide!)).1⟩

/-- Claim C7: when two interior window indices both satisfy the detector's
qualifying conditions, the reported candidate is the one at the smallest
qualifying index: the detector returns a signal at some `k ≤ i` that
qualifies while no smaller interior index qualifies. -/
theorem earliest_qualifying_wins (cs : List Candle) (lb i j : Nat)
    (hlen : lb + 2 ≤ cs.length)
    (hi : i ∈ List.range' 1 ((lastN (lb+1) cs).length - 2))
    (hqi : sweepQualB (lastN (lb+1) cs) i = true)
    (hj : j ∈ List.range' 1 ((lastN (lb+1) cs).length - 2))
    (hqj : sweepQualB (lastN (lb+1) cs) j = true)
    (hij : i < j) :
    ∃ k, k ≤ i ∧ sweepQualB (lastN (lb+1) cs) k = true ∧
      (∀ m ∈ List.range' 1 ((lastN (lb+1) cs).length - 2), m < k →
        sweepQualB (lastN (lb+1) cs) m = false) ∧
      detect_sweep_and_green cs lb
        = .signal ((lastN (lb+1) cs).getD k default)
            ((lastN (lb+1) cs).getD (k+1) default)
            (cs.length - (lb+1) + k) := by
  rcases hs : sweepScan (lastN (lb+1) cs)
      (List.range' 1 ((lastN (lb+1) cs).length - 2)) with _ | k
  · have := sweepScan_eq_none _ _ hs i hi
    rw [hqi] at this
    exact absurd this (by decide)
  · obtain ⟨hkmem, hkq⟩ := sweepScan_eq_some _ _ _ hs
    have hfirst := sweepScan_first _ _ k (List.pairwise_lt_range' 1 _) hs
    have hki : k ≤ i := by
      by_contra hgt
      push_neg at hgt
      have h2 := hfirst i hi hgt
      rw [hqi] at h2
      exact absurd h2 (by decide)
    refine ⟨k, hki, hkq, hfirst, ?_⟩
    unfold detect_sweep_and_green
    simp only []
    rw [if_neg (by omega), hs]

/-- Witness for C7 on `g15`: window indices 1 and 3 both qualify and the
detector reports the candidate at index 1. -/
theorem earliest_qualifying_wins_witness :
    sweepQualB (lastN 7 g15) 1 = true ∧ sweepQualB (lastN 7 g15) 3 = true ∧
    ∃ k, k ≤ 1 ∧ sweepQualB (lastN 7 g15) k = true ∧
      (∀ m ∈ List.range' 1 ((lastN 7 g15).length - 2), m < k →
        sweepQualB (lastN 7 g15) m = false) ∧
      detect_sweep_and_green g15 6
        = .signal ((lastN 7 g15).getD k default) ((lastN 7 g15).getD (k+1) default)
            (g15.length - 7 + k) := by
  refine ⟨by decide!, by decide!, ?_⟩
  exact earliest_qualifying_wins g15 6 1 3 (by decide) (by decide!) (by decide!)
    (by decide!) (by decide!) (by decide)

/-- Claim C9: a zero-range candle satisfying the candle invariant never
divides by zero (the `rng` guard substitutes `1e-6`, and `rng` is nowhere
zero), never qualifies as a sweep at its index, and the pass is not
aborted: any signal the detector still returns is at a different index. -/
theorem zero_range_candle_skipped (cs : List Candle) (lb i : Nat) (c : Candle)
    (hc : (lastN (lb+1) cs).getD i default = c)
    (hinv : max c.«open» c.close ≤ c.high ∧ c.low ≤ min c.«open» c.close)
    (hzero : c.high = c.low) :
    (∀ c' : Candle, rng c' ≠ 0) ∧
    sweepQualB (lastN (lb+1) cs) i = false ∧
    (∀ s cf m, detect_sweep_and_green cs lb = .signal s cf m →
      m ≠ cs.length - (lb+1) + i) := by
  have hrng : ∀ c' : Candle, rng c' ≠ 0 := by
    intro c'
    unfold rng
    split
    · rename_i h
      exact ne_of_gt h
    · norm_num
  have hopen : c.«open» = c.low := by
    have h1 : c.«open» ≤ c.low := le_trans (le_trans (le_max_left _ _) hinv.1) hzero.le
    have h2 : c.low ≤ c.«open» := le_trans hinv.2 (min_le_left _ _)
    exact le_antisymm h1 h2
  have hclose : c.close = c.low := by
    have h1 : c.close ≤ c.low := le_trans (le_trans (le_max_right _ _) hinv.1) hzero.le
    have h2 : c.low ≤ c.close := le_trans hinv.2 (min_le_right _ _)
    exact le_antisymm h1 h2
  have hwick : lowerWick c = 0 := by
    unfold lowerWick
    split <;> simp [hopen, hclose]
  have hqual : sweepQualB (lastN (lb+1) cs) i = false := by
    unfold sweepQualB
    rw [hc, hwick]
    have hh : ¬ ((0:ℚ) / rng c > 35/100) := by
      rw [zero_div]
      norm_num
    simp only [hh, zero_div, decide_eq_false, Bool.and_eq_false_imp, decide_eq_true_eq]
    intro ha
    rw [Bool.and_eq_true, Bool.and_eq_true] at ha
    have h3 := ha.2
    rw [decide_eq_true_eq] at h3
    exact absurd h3 (by norm_num)
  refine ⟨hrng, hqual, ?_⟩
  intro s cf m h
  obtain ⟨_, k, hs, hm, _, _⟩ := detect_signal_char cs lb s cf m h
  obtain ⟨_, hkq⟩ := sweepScan_eq_some _ _ _ hs
  intro heq
  have hki : k = i := by omega
  rw [hki, hqual] at hkq
  exact absurd hkq (by decide)

/-- Witness for C9 on `z15`: the doji at window index 2 is skipped and the
pass still finds the genuine sweep at window index 4. -/
theorem zero_range_candle_skipped_witness :
    (lastN 7 z15).getD 2 default = zDoji ∧ zDoji.high = zDoji.low ∧
    (sweepQualB (lastN 7 z15) 2 = false ∧
      (∀ s cf m, detect_sweep_and_green z15 6 = .signal s cf m →
        m ≠ z15.length - 7 + 2)) ∧
    detect_sweep_and_green z15 6
      = .signal ⟨4500, 99, 100, 96, 99.8, 10⟩ ⟨5400, 99, 101, 98.5, 100.5, 10⟩ 5 := by
  have h := zero_range_candle_skipped z15 6 2 zDoji (by decide!) (by decide!) (by decide!)
  exact ⟨by decide!, by decide!, ⟨h.2.1, h.2.2⟩, by decide!⟩

/-- Claim C10: every trade plan either builder emits has side `"LONG"`;
no SELL/short plan is ever produced. -/
theorem plans_always_long (det : SweepResult) (c15 c5 : List Candle) (p : TradePlan) :
    (build_xau_trade_plan det c15 c5 = some p → p.side = "LONG") ∧
    (build_btc_trade_plan det c15 c5 = some p → p.side = "LONG") := by
  constructor
  · intro h
    obtain ⟨_, _, _, _, _, _, _, hp⟩ := build_xau_char det c15 c5 p h
    rw [hp]
  · intro h
    obtain ⟨_, _, _, _, _, _, _, hp⟩ := build_btc_char det c15 c5 p h
    rw [hp]

/-- Witness for C10: both builders emit a LONG plan on the concrete data. -/
theorem plans_always_long_witness :
    exPlanX.side = "LONG" ∧ exPlanB.side = "LONG" :=
  ⟨(plans_always_long (detect_sweep_and_green ex15 6) ex15 ex5 exPlanX).1 (by decide!),
   (plans_always_long (detect_sweep_and_green ex15 6) ex15 ex5 exPlanB).2 (by decide!)⟩

/-- Claim C4 counterexample: the plan built from `ex15`/`ex5` reports
`entry = 96.5`, `sl = 94.95` and `tp = 102.698`, but
`entry + (entry − sl) · RR = 102.7`: the reported take-profit equals the
rounded value of the take-profit computed from the *unrounded* stop,
not the exact identity on the reported values. -/
theorem tp_identity_counterexample :
    build_xau_trade_plan (detect_sweep_and_green ex15 6) ex15 ex5 = some exPlanX ∧
    exPlanX.tp ≠ exPlanX.entry + (exPlanX.entry - exPlanX.sl) * RR := by
  refine ⟨by decide!, by decide!⟩

/-- Claim C4 (amended): the reported take-profit and intermediate target
are the decimal roundings of `entry + (entry − stop) · RR` (resp.
multiple 1) computed from the pre-rounding stop (and, for BTC, the
pre-rounding entry), so on the reported values the identity holds up to
the rounding error of the final decimal: within `1/400` (tp) and `1/1000`
(tp1) for XAU plans (3 decimals), and within `1/20` (tp) and `1/50` (tp1)
for BTC plans (2 decimals). -/
theorem tp_within_rounding_of_rr :
    (∀ (det : SweepResult) (c15 c5 : List Candle) (p : TradePlan),
      build_xau_trade_plan det c15 c5 = some p →
      |p.tp - (p.entry + (p.entry - p.sl) * RR)| ≤ 1/400 ∧
      |p.tp1 - (p.entry + (p.entry - p.sl))| ≤ 1/1000) ∧
    (∀ (det : SweepResult) (c15 c5 : List Candle) (p : TradePlan),
      build_btc_trade_plan det c15 c5 = some p →
      |p.tp - (p.entry + (p.entry - p.sl) * RR)| ≤ 1/20 ∧
      |p.tp1 - (p.entry + (p.entry - p.sl))| ≤ 1/50) := by
  have hRR : RR = (4:ℚ) := rfl
  constructor
  · intro det c15 c5 p h
    obtain ⟨sweep, confirm, k, e, _, hok, hentry, hp⟩ := build_xau_char det c15 c5 p h
    -- the approved entry is itself a 3-decimal value, so re-rounding it is the identity
    obtain ⟨cand, reason, hsec⟩ := sec_ok_shape c15 c5 sweep.low confirm.high hok
    rw [hsec] at hentry
    unfold mkOkResult at hentry
    have hentry' : roundTo 3 (max (cand.«open» + 2/100) ((cand.close + sweep.low) / 2)) = e := by
      injection hentry
    subst hp
    dsimp only
    rw [← hentry', roundTo_idem]
    set x := max (cand.«open» + 2/100) ((cand.close + sweep.low) / 2) with hx
    set slp := xauStop sweep.low with hslp
    have ha := abs_roundTo_sub 3 (roundTo 3 x + (roundTo 3 x - slp) * RR)
    have ha1 := abs_roundTo_sub 3 (roundTo 3 x + (roundTo 3 x - slp))
    have hb := abs_roundTo_sub 3 slp
    rw [hRR] at ha ⊢
    simp only [mul_one]
    norm_num at ha ha1 hb
    obtain ⟨ha_lo, ha_hi⟩ := abs_le.mp ha
    obtain ⟨ha1_lo, ha1_hi⟩ := abs_le.mp ha1
    obtain ⟨hb_lo, hb_hi⟩ := abs_le.mp hb
    constructor
    · rw [abs_le]
      constructor <;> linarith
    · rw [abs_le]
      constructor <;> linarith
  · intro det c15 c5 p h
    obtain ⟨sweep, confirm, k, e, _, hok, hentry, hp⟩ := build_btc_char det c15 c5 p h
    subst hp
    dsimp only
    set slp := sweep.low - BTC_SL_USD with hslp
    have ha := abs_roundTo_sub 2 (e + (e - slp) * RR)
    have ha1 := abs_roundTo_sub 2 (e + (e - slp))
    have hb := abs_roundTo_sub 2 slp
    have hcn := abs_roundTo_sub 2 e
    rw [hRR] at ha ⊢
    simp only [mul_one]
    norm_num at ha ha1 hb hcn
    obtain ⟨ha_lo, ha_hi⟩ := abs_le.mp ha
    obtain ⟨ha1_lo, ha1_hi⟩ := abs_le.mp ha1
    obtain ⟨hb_lo, hb_hi⟩ := abs_le.mp hb
    obtain ⟨hc_lo, hc_hi⟩ := abs_le.mp hcn
    constructor
    · rw [abs_le]
      constructor <;> linarith
    · rw [abs_le]
      constructor <;> linarith

/-- Witness for the amended C4 on the concrete plans. -/
theorem tp_within_rounding_of_rr_witness :
    |exPlanX.tp - (exPlanX.entry + (exPlanX.entry - exPlanX.sl) * RR)| ≤ 1/400 ∧
    |exPlanB.tp - (exPlanB.entry + (exPlanB.entry - exPlanB.sl) * RR)| ≤ 1/20 :=
  ⟨(tp_within_rounding_of_rr.1 (detect_sweep_and_green ex15 6) ex15 ex5 exPlanX (by decide!)).1,
   (tp_within_rounding_of_rr.2 (detect_sweep_and_green ex15 6) ex15 ex5 exPlanB (by decide!)).1⟩

end LMBot
